import Mathlib

/-!
Shallow embedding of the MCP task-manager server (`mcp_server.py`): the
in-memory task store (`tasks` dict plus `task_counter`), the tool dispatcher
`call_tool`, the resource reader `read_resource`, the capability catalogs
(`list_tools`, `list_resources`, `list_prompts`) and the prompt renderer
`get_prompt`, together with theorems about the behaviour the specification
ascribes to them.

Modelling conventions:
* the Python dict `tasks` preserves insertion order and has the task ids as
  keys, so it is modelled as a `List Task` whose elements carry their id;
* timestamps (`datetime.now().isoformat()`) are modelled as abstract `Nat`
  clock values supplied by the caller;
* raised Python exceptions become the `Fault` error of an `Except`;
* each handler returns the (possibly updated) global state next to its
  result, making mutation — and its absence — explicit.
-/

namespace MCPTaskManager

/-- JSON values, as built by the server right before `json.dumps`
serialization. Since `json.dumps` is an injective encoding of these values,
properties of the produced text are stated on the `Json` value or on the
`jsonDumps` rendering below. -/
inductive Json where
  | null : Json
  | bool (b : Bool) : Json
  | num (n : Int) : Json
  | str (s : String) : Json
  | arr (elems : List Json) : Json
  | obj (fields : List (String × Json)) : Json
  deriving Repr

mutual

/-- Rendering of a `Json` value to text, standing for `json.dumps` (the
`indent=2` pretty-printing whitespace and string escaping are not modelled;
no property below observes them). -/
def jsonDumps : Json → String
  | .null => "null"
  | .bool true => "true"
  | .bool false => "false"
  | .num n => toString n
  | .str s => "\"" ++ s ++ "\""
  | .arr elems => "[" ++ String.intercalate ", " (jsonDumpsElems elems) ++ "]"
  | .obj fields => "\x7b" ++ String.intercalate ", " (jsonDumpsFields fields) ++ "\x7d"

/-- Renders each element of a JSON array. -/
def jsonDumpsElems : List Json → List String
  | [] => []
  | j :: rest => jsonDumps j :: jsonDumpsElems rest

/-- Renders each field of a JSON object. -/
def jsonDumpsFields : List (String × Json) → List String
  | [] => []
  | (k, v) :: rest => ("\"" ++ k ++ "\": " ++ jsonDumps v) :: jsonDumpsFields rest

end

/-- A task record, exactly the dict built by the `create_task` branch of
`call_tool`. The `completed_at` key, which the Python dict acquires only when
`complete_task` first runs, is an `Option`. -/
structure Task where
  id : Nat
  title : String
  description : String
  priority : String
  completed : Bool
  created_at : Nat
  completed_at : Option Nat
  deriving Repr, DecidableEq

/-- JSON serialization of one task dict: the six keys set at creation, plus
`completed_at` when present. -/
def taskJson (t : Task) : Json :=
  .obj ([("id", .num (t.id : Int)), ("title", .str t.title),
    ("description", .str t.description), ("priority", .str t.priority),
    ("completed", .bool t.completed), ("created_at", .num (t.created_at : Int))] ++
    (match t.completed_at with
     | some ts => [("completed_at", .num (ts : Int))]
     | none => []))

/-- The global mutable state of the server: the `tasks` dict (insertion
ordered, keyed by the `id` field of each record) and the `task_counter`. -/
structure Store where
  tasks : List Task
  task_counter : Nat
  deriving Repr, DecidableEq

/-- The initial state: `tasks = {}`, `task_counter = 0`. -/
def Store.init : Store := { tasks := [], task_counter := 0 }

/-- The argument bag passed to `call_tool`: a JSON object on the wire, of
which the dispatcher only ever reads the keys below; a missing key is `none`.
`task_id` holds the integer the code obtains via `int(arguments["task_id"])`. -/
structure Args where
  title : Option String := none
  description : Option String := none
  priority : Option String := none
  task_id : Option Int := none
  keyword : Option String := none
  deriving Repr, DecidableEq

/-- Exceptions the handlers raise, one constructor per raising site:
`keyError k` is Python's `KeyError` from `arguments[k]`; `invalidLiteral s`
is the `ValueError` from `int(s)` on a non-numeric string (the spec's
`InvalidArgument`); `taskNotFound` is `raise ValueError("Task N not found")`
in `read_resource` (the spec's `NotFound`); `unknownResource` is
`raise ValueError("Unknown resource URI: ...")` (the spec's
`InvalidArgument`); `unknownTool` and `unknownPrompt` are the corresponding
`raise ValueError` sites of `call_tool` and `get_prompt`. -/
inductive Fault where
  | keyError (key : String)
  | invalidLiteral (s : String)
  | taskNotFound (id : Int)
  | unknownResource (uri : String)
  | unknownTool (name : String)
  | unknownPrompt (name : String)
  deriving Repr, DecidableEq

/-- Python's `s.lower()`: character-wise lower-casing (for the ASCII data
handled here this agrees with Python's Unicode-aware lowering). -/
def pyLower (s : String) : String := String.mk (s.data.map Char.toLower)

/-- Python's `needle in haystack` test on strings: substring containment. -/
def pyContains (haystack needle : String) : Bool :=
  decide (needle.data <:+: haystack.data)

/-- Python's `s.startswith(pre)`. -/
def pyStartswith (s pre : String) : Bool :=
  decide (pre.data <+: s.data)

/-- Numeric value of one decimal digit character. -/
def digitVal (c : Char) : Option Nat :=
  if '0' ≤ c ∧ c ≤ '9' then some (c.toNat - '0'.toNat) else none

/-- Accumulating left-to-right evaluation of a digit string. -/
def digitsAux (acc : Nat) : List Char → Option Nat
  | [] => some acc
  | c :: rest =>
    match digitVal c with
    | some d => digitsAux (10 * acc + d) rest
    | none => none

/-- Value of a nonempty all-digit character list. -/
def digitsToNat : List Char → Option Nat
  | [] => none
  | cs => digitsAux 0 cs

/-- Python's `int(s)` on the characters of a string: an optional sign
followed by at least one digit. (Python additionally tolerates surrounding
whitespace and underscores between digits; no property below involves such
inputs.) -/
def pyIntChars : List Char → Option Int
  | [] => none
  | c :: rest =>
    if c = '-' then (digitsToNat rest).map (fun n => -(n : Int))
    else if c = '+' then (digitsToNat rest).map (fun n => (n : Int))
    else (digitsToNat (c :: rest)).map (fun n => (n : Int))

/-- Python's `int(s)` on a string. -/
def pyInt (s : String) : Option Int := pyIntChars s.data

/-- Python's `s.split("//")` on character lists: split on each
non-overlapping occurrence of `//`, scanning left to right. -/
def splitDslash : List Char → List (List Char)
  | [] => [[]]
  | [c] => [[c]]
  | c1 :: c2 :: rest =>
    if c1 == '/' && c2 == '/' then
      [] :: splitDslash rest
    else
      match splitDslash (c2 :: rest) with
      | [] => [[c1]]
      | grp :: grps => (c1 :: grp) :: grps

/-- Text of the success message of the `create_task` branch. -/
def createdMsg (t : Task) : String :=
  "Task created successfully!\n\n" ++ jsonDumps (taskJson t)

/-- Text of the soft not-found reply of `complete_task` and `delete_task`. -/
def notFoundMsg (tid : Int) : String :=
  "Task " ++ toString tid ++ " not found"

/-- Text of the success message of the `complete_task` branch. -/
def completedMsg (tid : Int) (t : Task) : String :=
  "Task " ++ toString tid ++ " marked as completed!\n\n" ++ jsonDumps (taskJson t)

/-- Text of the success message of the `delete_task` branch. -/
def deletedMsg (tid : Int) (t : Task) : String :=
  "Task " ++ toString tid ++ " deleted successfully!\n\n" ++ jsonDumps (taskJson t)

/-- Text of the reply of the `search_tasks` branch. -/
def searchMsg (keyword : String) (results : List Task) : String :=
  "Found " ++ toString results.length ++ " task(s) matching \x27" ++ keyword ++
    "\x27:\n\n" ++ jsonDumps (.arr (results.map taskJson))

/-- The match test of the `search_tasks` loop: the (already lower-cased)
keyword occurs in the lower-cased title or in the lower-cased description. -/
def searchMatch (keyword : String) (t : Task) : Bool :=
  pyContains (pyLower t.title) keyword || pyContains (pyLower t.description) keyword

/-- Shallow embedding of `call_tool` from `mcp_server.py`. `now` stands for
`datetime.now()`. The result pairs the returned `TextContent` texts (or the
raised exception) with the global state after the call. Note that the
`create_task` branch increments `task_counter` before it evaluates
`arguments["title"]`, so the counter is already bumped when a missing title
raises `KeyError`; no other key of the task dict is validated — an empty
title or an arbitrary `priority` string is stored as given. -/
def call_tool (name : String) (arguments : Args) (now : Nat) (s : Store) :
    Except Fault (List String) × Store :=
  if name = "create_task" then
    let task_counter := s.task_counter + 1
    let task_id := task_counter
    match arguments.title with
    | none => (.error (.keyError "title"), { s with task_counter := task_counter })
    | some title =>
      let task : Task :=
        { id := task_id
          title := title
          description := arguments.description.getD ""
          priority := arguments.priority.getD "medium"
          completed := false
          created_at := now
          completed_at := none }
      (.ok [createdMsg task], { tasks := s.tasks ++ [task], task_counter := task_counter })
  else if name = "complete_task" then
    match arguments.task_id with
    | none => (.error (.keyError "task_id"), s)
    | some task_id =>
      match s.tasks.find? (fun t => (t.id : Int) = task_id) with
      | none => (.ok [notFoundMsg task_id], s)
      | some t =>
        let updated := { t with completed := true, completed_at := some now }
        let tasks := s.tasks.map (fun u =>
          if (u.id : Int) = task_id then updated else u)
        (.ok [completedMsg task_id updated], { s with tasks := tasks })
  else if name = "delete_task" then
    match arguments.task_id with
    | none => (.error (.keyError "task_id"), s)
    | some task_id =>
      match s.tasks.find? (fun t => (t.id : Int) = task_id) with
      | none => (.ok [notFoundMsg task_id], s)
      | some deleted_task =>
        let tasks := s.tasks.filter (fun t => (t.id : Int) ≠ task_id)
        (.ok [deletedMsg task_id deleted_task], { s with tasks := tasks })
  else if name = "search_tasks" then
    match arguments.keyword with
    | none => (.error (.keyError "keyword"), s)
    | some kw =>
      let keyword := pyLower kw
      let results := s.tasks.filter (searchMatch keyword)
      (.ok [searchMsg keyword results], s)
  else
    (.error (.unknownTool name), s)

/-- The JSON value `read_resource` serializes for `task://all`: the `tasks`
dict (keys are the stringified ids), `total_count`, and the read-time
timestamp. -/
def allTasksJson (now : Nat) (s : Store) : Json :=
  .obj [("tasks", .obj (s.tasks.map (fun t => (toString t.id, taskJson t)))),
    ("total_count", .num (s.tasks.length : Int)),
    ("timestamp", .num (now : Int))]

/-- Shallow embedding of `read_resource`. The Python function returns
`json.dumps` of a value; serialization being a separate injective step, the
`Json` value itself is returned here. For a `task://` URI other than
`task://all` the code evaluates `int(uri.split("//")[1])` and looks the
result up in the store. -/
def read_resource (uri : String) (now : Nat) (s : Store) :
    Except Fault Json × Store :=
  if uri = "task://all" then
    (.ok (allTasksJson now s), s)
  else if pyStartswith uri "task://" then
    let seg := (splitDslash uri.data).getD 1 []
    match pyIntChars seg with
    | none => (.error (.invalidLiteral (String.mk seg)), s)
    | some task_id =>
      match s.tasks.find? (fun t => (t.id : Int) = task_id) with
      | some t => (.ok (taskJson t), s)
      | none => (.error (.taskNotFound task_id), s)
  else
    (.error (.unknownResource uri), s)

/-- An entry of the resource catalog. -/
structure Resource where
  uri : String
  name : String
  mimeType : String
  description : String
  deriving Repr, DecidableEq

/-- Shallow embedding of `list_resources`: the aggregate `task://all`
resource followed by one resource per stored task, in store order. The store
is returned unchanged next to the catalog (the handler only reads it). -/
def list_resources (s : Store) : List Resource × Store :=
  (⟨"task://all", "All Tasks", "application/json",
      "Complete list of all tasks in the system"⟩ ::
    s.tasks.map (fun t =>
      ⟨"task://" ++ toString t.id, "Task " ++ toString t.id, "application/json",
        "Details for task: " ++ t.title⟩), s)

/-- An entry of the tool catalog; `inputSchema` is the JSON Schema object
declared for the tool. -/
structure Tool where
  name : String
  description : String
  inputSchema : Json
  deriving Repr

/-- Shallow embedding of `list_tools`: the four static tool declarations.
The handler reads no state, but is given the store (and hands it back
untouched) so that its frame property is statable like the others. -/
def list_tools (s : Store) : List Tool × Store :=
  ([{ name := "create_task"
      description := "Create a new task with a title and optional description"
      inputSchema := .obj [("type", .str "object"),
        ("properties", .obj [
          ("title", .obj [("type", .str "string"),
            ("description", .str "The title of the task")]),
          ("description", .obj [("type", .str "string"),
            ("description", .str "Optional description of the task")]),
          ("priority", .obj [("type", .str "string"),
            ("enum", .arr [.str "low", .str "medium", .str "high"]),
            ("description", .str "Priority level of the task")])]),
        ("required", .arr [.str "title"])] },
    { name := "complete_task"
      description := "Mark a task as completed"
      inputSchema := .obj [("type", .str "object"),
        ("properties", .obj [
          ("task_id", .obj [("type", .str "number"),
            ("description", .str "The ID of the task to complete")])]),
        ("required", .arr [.str "task_id"])] },
    { name := "delete_task"
      description := "Delete a task permanently"
      inputSchema := .obj [("type", .str "object"),
        ("properties", .obj [
          ("task_id", .obj [("type", .str "number"),
            ("description", .str "The ID of the task to delete")])]),
        ("required", .arr [.str "task_id"])] },
    { name := "search_tasks"
      description := "Search for tasks by keyword in title or description"
      inputSchema := .obj [("type", .str "object"),
        ("properties", .obj [
          ("keyword", .obj [("type", .str "string"),
            ("description", .str "Keyword to search for")])]),
        ("required", .arr [.str "keyword"])] }], s)

/-- Declared argument of a prompt. -/
structure PromptArgument where
  name : String
  description : String
  required : Bool
  deriving Repr, DecidableEq

/-- An entry of the prompt catalog. -/
structure Prompt where
  name : String
  description : String
  arguments : List PromptArgument
  deriving Repr, DecidableEq

/-- Shallow embedding of `list_prompts`: the three static prompt
declarations, with the store handed back untouched. -/
def list_prompts (s : Store) : List Prompt × Store :=
  ([{ name := "daily_summary"
      description := "Generate a daily summary of all tasks"
      arguments := [⟨"include_completed", "Whether to include completed tasks", false⟩] },
    { name := "task_priorities"
      description := "Analyze and suggest task priorities"
      arguments := [] },
    { name := "create_task_wizard"
      description := "Interactive wizard to create a well-structured task"
      arguments := [⟨"task_type", "Type of task (work, personal, urgent)", true⟩] }], s)

/-- One message of a rendered prompt (role plus the text content). -/
structure PromptMessage where
  role : String
  content_text : String
  deriving Repr, DecidableEq

/-- The result of `get_prompt`: a description and the rendered messages. -/
structure GetPromptResult where
  description : String
  messages : List PromptMessage
  deriving Repr, DecidableEq

/-- The parse of the optional `include_completed` argument of
`daily_summary`. Python evaluates
`arguments.get("include_completed", "true") == "true" if arguments else True`,
so a `None` or empty (falsy) dict yields `True`, and otherwise the flag is
`True` exactly when the stored value (defaulting to `"true"` for a missing
key) equals the literal string `"true"`. -/
def includeCompletedFlag (arguments : Option (List (String × String))) : Bool :=
  match arguments with
  | none => true
  | some args =>
    if args.isEmpty then true
    else ((args.lookup "include_completed").getD "true") == "true"

/-- The `task_list` gathered by the `daily_summary` branch: every stored
task, in store order, except that completed tasks are skipped when the
`include_completed` flag parsed to false. -/
def dailySummaryTaskList (arguments : Option (List (String × String)))
    (s : Store) : List Task :=
  s.tasks.filter (fun t => !(!includeCompletedFlag arguments && t.completed))

/-- Text of the `daily_summary` prompt for a given gathered task list. -/
def dailySummaryText (task_list : List Task) : String :=
  "Please provide a daily summary of tasks.\n\nCurrent tasks (" ++
    toString task_list.length ++ " total):\n" ++
    jsonDumps (.arr (task_list.map taskJson)) ++
    "\n\nPlease:\n1. Summarize the overall status\n2. Highlight high-priority tasks\n3. Identify any overdue or urgent items\n4. Suggest next actions"

/-- Text of the `task_priorities` prompt, embedding every stored task. -/
def taskPrioritiesText (s : Store) : String :=
  "Analyze the following tasks and provide priority recommendations:\n\n" ++
    jsonDumps (.arr (s.tasks.map taskJson)) ++
    "\n\nPlease:\n1. Review each task\x27s current priority\n2. Suggest any priority adjustments based on urgency and importance\n3. Recommend a focus order for today\n4. Identify tasks that could be delegated or eliminated"

/-- The parse of the `task_type` argument of `create_task_wizard`:
`arguments.get("task_type", "general") if arguments else "general"`, so a
`None` or empty (falsy) dict — despite the argument being declared required —
yields `"general"`. -/
def taskTypeArg (arguments : Option (List (String × String))) : String :=
  match arguments with
  | none => "general"
  | some args =>
    if args.isEmpty then "general"
    else (args.lookup "task_type").getD "general"

/-- Text of the `create_task_wizard` prompt for a given task type. -/
def createTaskWizardText (task_type : String) : String :=
  "Let\x27s create a well-structured " ++ task_type ++
    " task together.\n\nPlease help me create a task by asking about:\n1. What is the main objective or title?\n2. What are the specific details or requirements?\n3. What priority level is appropriate (low/medium/high)?\n4. Are there any dependencies or blockers?\n\nAfter gathering this information, use the create_task tool to add it to the system."

/-- Shallow embedding of `get_prompt`, with the store handed back untouched
next to the rendered result (the handler only reads it). -/
def get_prompt (name : String) (arguments : Option (List (String × String)))
    (s : Store) : Except Fault GetPromptResult × Store :=
  if name = "daily_summary" then
    let task_list := dailySummaryTaskList arguments s
    (.ok { description := "Daily task summary prompt"
           messages := [{ role := "user", content_text := dailySummaryText task_list }] }, s)
  else if name = "task_priorities" then
    (.ok { description := "Task priority analysis prompt"
           messages := [{ role := "user", content_text := taskPrioritiesText s }] }, s)
  else if name = "create_task_wizard" then
    let task_type := taskTypeArg arguments
    (.ok { description := "Interactive wizard for creating a " ++ task_type ++ " task"
           messages := [{ role := "user", content_text := createTaskWizardText task_type }] }, s)
  else
    (.error (.unknownPrompt name), s)

/-- One dispatched tool call: tool name, argument bag, and the clock value
at the time of the call. -/
structure Dispatch where
  name : String
  arguments : Args
  now : Nat
  deriving Repr, DecidableEq

/-- Runs a sequence of tool dispatches against the store, threading the
state through `call_tool` (results are discarded; faults leave whatever
state the faulting call produced, as the Python globals persist across a
raised exception). -/
def runDispatches (s : Store) : List Dispatch → Store
  | [] => s
  | d :: rest => runDispatches (call_tool d.name d.arguments d.now s).2 rest

/-- A store operation in the sense of claim C1: a `create_task` dispatch
with an arbitrary argument bag, or a `delete_task` dispatch for a given id. -/
inductive Op where
  | createOp (arguments : Args) (now : Nat) : Op
  | deleteOp (task_id : Int) (now : Nat) : Op
  deriving Repr, DecidableEq

/-- The state transition of one `Op`, via `call_tool`. -/
def applyOp (s : Store) : Op → Store
  | .createOp args now => (call_tool "create_task" args now s).2
  | .deleteOp tid now => (call_tool "delete_task" { task_id := some tid } now s).2

/-- Runs a sequence of create/delete operations. -/
def runOps (s : Store) : List Op → Store
  | [] => s
  | op :: rest => runOps (applyOp s op) rest

/-- The ids handed out along a run: each `create_task` dispatch that gets
past the `arguments["title"]` lookup stores a task whose `id` field is the
incremented counter `s.task_counter + 1`; this collects those ids in call
order. -/
def assignedIds (s : Store) : List Op → List Nat
  | [] => []
  | .createOp args now :: rest =>
    if args.title.isSome then
      (s.task_counter + 1) :: assignedIds (applyOp s (.createOp args now)) rest
    else
      assignedIds (applyOp s (.createOp args now)) rest
  | .deleteOp tid now :: rest => assignedIds (applyOp s (.deleteOp tid now)) rest

/-- Number of `create_task` dispatches in an operation sequence. -/
def countCreates : List Op → Nat :=
  List.countP (fun op => match op with
    | .createOp _ _ => true
    | .deleteOp _ _ => false)

/-- The task record the `create_task` branch builds and stores when the
title lookup succeeds. -/
def newTask (title : String) (arguments : Args) (now : Nat) (s : Store) : Task :=
  { id := s.task_counter + 1
    title := title
    description := arguments.description.getD ""
    priority := arguments.priority.getD "medium"
    completed := false
    created_at := now
    completed_at := none }

/-- Fixture: a completed task, as it looks after `create_task` at time 0
followed by `complete_task` at time 0. -/
def doneTask : Task :=
  { id := 1, title := "a", description := "", priority := "medium",
    completed := true, created_at := 0, completed_at := some 0 }

/-- Fixture: a store holding just `doneTask`. -/
def doneStore : Store := { tasks := [doneTask], task_counter := 1 }

/-- Fixture: the task created by
`create_task {title: "Write documentation", priority: "high"}` at time 0. -/
def docTask : Task :=
  { id := 1, title := "Write documentation", description := "", priority := "high",
    completed := false, created_at := 0, completed_at := none }

/-- Fixture: a store holding just `docTask`. -/
def docStore : Store := { tasks := [docTask], task_counter := 1 }

/-- Fixture: the task created by `create_task` with an empty title at time 0
on the empty store. -/
def emptyTitleTask : Task :=
  { id := 1, title := "", description := "", priority := "medium",
    completed := false, created_at := 0, completed_at := none }

/-- Fixture: the task created by `create_task` with the out-of-enumeration
priority `urgent` at time 0 on the empty store. -/
def urgentTask : Task :=
  { id := 1, title := "a", description := "", priority := "urgent",
    completed := false, created_at := 0, completed_at := none }

/-- Fixture: a create, a delete of the created task, and another create. -/
def opsFixture : List Op :=
  [.createOp { title := some "a" } 0, .deleteOp 1 1, .createOp { title := some "b" } 2]

/-- Fixture: a `create_task` dispatch followed by a `complete_task` dispatch
of the created task. -/
def dispatchFixture : List Dispatch :=
  [{ name := "create_task", arguments := { title := some "a" }, now := 0 },
   { name := "complete_task", arguments := { task_id := some 1 }, now := 0 }]

/-- The completed/completed_at consistency invariant of the store: a stored
task carries a `completed_at` timestamp exactly when its `completed` flag is
set. -/
def StoreConsistent (s : Store) : Prop :=
  ∀ t ∈ s.tasks, t.completed_at.isSome = t.completed

/-- The `GetPromptResult` built by the `daily_summary` branch for a given
argument dict and store. -/
def dailySummaryResult (arguments : Option (List (String × String)))
    (s : Store) : GetPromptResult :=
  { description := "Daily task summary prompt"
    messages := [{ role := "user"
                   content_text := dailySummaryText (dailySummaryTaskList arguments s) }] }

/-! Branch characterizations of `call_tool`. -/

theorem call_tool_create_of_title_none (arguments : Args) (now : Nat) (s : Store)
    (h : arguments.title = none) :
    call_tool "create_task" arguments now s =
      (.error (.keyError "title"), { s with task_counter := s.task_counter + 1 }) := by
  simp [call_tool, h]

theorem call_tool_create_of_title_some (arguments : Args) (title : String) (now : Nat)
    (s : Store) (h : arguments.title = some title) :
    call_tool "create_task" arguments now s =
      (.ok [createdMsg (newTask title arguments now s)],
        { tasks := s.tasks ++ [newTask title arguments now s],
          task_counter := s.task_counter + 1 }) := by
  simp [call_tool, h, newTask]

theorem call_tool_complete_of_found (arguments : Args) (tid : Int) (now : Nat) (s : Store)
    (t : Task) (hid : arguments.task_id = some tid)
    (hfind : s.tasks.find? (fun u => (u.id : Int) = tid) = some t) :
    call_tool "complete_task" arguments now s =
      (.ok [completedMsg tid { t with completed := true, completed_at := some now }],
        { s with tasks := s.tasks.map (fun u =>
            if (u.id : Int) = tid then { t with completed := true, completed_at := some now }
            else u) }) := by
  simp [call_tool, hid, hfind]

theorem call_tool_complete_of_absent (arguments : Args) (tid : Int) (now : Nat) (s : Store)
    (hid : arguments.task_id = some tid)
    (hfind : s.tasks.find? (fun u => (u.id : Int) = tid) = none) :
    call_tool "complete_task" arguments now s = (.ok [notFoundMsg tid], s) := by
  simp [call_tool, hid, hfind]

theorem call_tool_delete_of_found (arguments : Args) (tid : Int) (now : Nat) (s : Store)
    (t : Task) (hid : arguments.task_id = some tid)
    (hfind : s.tasks.find? (fun u => (u.id : Int) = tid) = some t) :
    call_tool "delete_task" arguments now s =
      (.ok [deletedMsg tid t],
        { s with tasks := s.tasks.filter (fun u => (u.id : Int) ≠ tid) }) := by
  simp [call_tool, hid, hfind]

theorem call_tool_delete_of_absent (arguments : Args) (tid : Int) (now : Nat) (s : Store)
    (hid : arguments.task_id = some tid)
    (hfind : s.tasks.find? (fun u => (u.id : Int) = tid) = none) :
    call_tool "delete_task" arguments now s = (.ok [notFoundMsg tid], s) := by
  simp [call_tool, hid, hfind]

theorem call_tool_search (arguments : Args) (kw : String) (now : Nat) (s : Store)
    (h : arguments.keyword = some kw) :
    call_tool "search_tasks" arguments now s =
      (.ok [searchMsg (pyLower kw) (s.tasks.filter (searchMatch (pyLower kw)))], s) := by
  simp [call_tool, h]

theorem call_tool_unknown (name : String) (arguments : Args) (now : Nat) (s : Store)
    (h1 : name ≠ "create_task") (h2 : name ≠ "complete_task")
    (h3 : name ≠ "delete_task") (h4 : name ≠ "search_tasks") :
    call_tool name arguments now s = (.error (.unknownTool name), s) := by
  simp [call_tool, h1, h2, h3, h4]

/-- The `task_counter` after any `create_task` dispatch: incremented by one,
whether or not the title lookup faults. -/
theorem create_task_counter (arguments : Args) (now : Nat) (s : Store) :
    (call_tool "create_task" arguments now s).2.task_counter = s.task_counter + 1 := by
  cases h : arguments.title with
  | none => simp [call_tool_create_of_title_none arguments now s h]
  | some title => simp [call_tool_create_of_title_some arguments title now s h]

/-- The `task_counter` after any `delete_task` dispatch: unchanged. -/
theorem delete_task_counter (arguments : Args) (now : Nat) (s : Store) :
    (call_tool "delete_task" arguments now s).2.task_counter = s.task_counter := by
  cases hid : arguments.task_id with
  | none => simp [call_tool, hid]
  | some tid =>
    cases hfind : s.tasks.find? (fun u => (u.id : Int) = tid) with
    | none => simp [call_tool_delete_of_absent arguments tid now s hid hfind]
    | some t => simp [call_tool_delete_of_found arguments tid now s t hid hfind]

/-- The soft not-found reply of the tool path always contains the text
`not found`. -/
theorem notFoundMsg_contains (tid : Int) :
    "not found".data <:+: (notFoundMsg tid).data := by
  have hdata : (notFoundMsg tid).data =
      ("Task " ++ toString tid).data ++ " not found".data := by
    simp [notFoundMsg, String.data_append]
  rw [hdata]
  have h1 : "not found".data <:+: " not found".data := by decide
  exact h1.trans (List.suffix_append _ _).isInfix

/-- C2: for every store state and every integer `task_id` not present in the
store, dispatching `complete_task` or `delete_task` with that id returns a
successful textual result whose text contains `not found` (not a fault) and
leaves the store unchanged; dispatching any tool name outside the four known
tools raises the hard `unknownTool` fault, for every argument bag. -/
theorem claim_C2 :
    (∀ (s : Store) (tid : Int) (now : Nat),
      (∀ t ∈ s.tasks, (t.id : Int) ≠ tid) →
        call_tool "complete_task" { task_id := some tid } now s =
          (.ok [notFoundMsg tid], s) ∧
        call_tool "delete_task" { task_id := some tid } now s =
          (.ok [notFoundMsg tid], s) ∧
        "not found".data <:+: (notFoundMsg tid).data) ∧
    (∀ (name : String) (arguments : Args) (now : Nat) (s : Store),
      name ≠ "create_task" → name ≠ "complete_task" → name ≠ "delete_task" →
      name ≠ "search_tasks" →
        call_tool name arguments now s = (.error (.unknownTool name), s)) := by
  constructor
  · intro s tid now habsent
    have hfind : s.tasks.find? (fun u => (u.id : Int) = tid) = none := by
      rw [List.find?_eq_none]
      intro t ht
      simpa using habsent t ht
    exact ⟨call_tool_complete_of_absent _ tid now s rfl hfind,
      call_tool_delete_of_absent _ tid now s rfl hfind,
      notFoundMsg_contains tid⟩
  · intro name arguments now s h1 h2 h3 h4
    exact call_tool_unknown name arguments now s h1 h2 h3 h4

/-- Witness for C2 at concrete inputs: id 99 against the empty store, and
the tool name `bogus_tool`. -/
theorem claim_C2_witness :
    call_tool "complete_task" { task_id := some 99 } 0 Store.init =
      (.ok [notFoundMsg 99], Store.init) ∧
    call_tool "bogus_tool" { } 0 Store.init =
      (.error (.unknownTool "bogus_tool"), Store.init) :=
  ⟨(claim_C2.1 Store.init 99 0 (by simp [Store.init])).1,
    claim_C2.2 "bogus_tool" { } 0 Store.init (by decide) (by decide) (by decide) (by decide)⟩

/-- C3 counterexample: the claim asserts that a `title` mapping to the empty
string makes `create_task` fault without storing a task, but the code
validates nothing beyond the key lookup — dispatching `create_task` with
`title = ""` on the empty store succeeds and stores a task with empty
title. -/
theorem claim_C3_counterexample :
    (call_tool "create_task" { title := some "" } 0 Store.init).1 =
      .ok [createdMsg emptyTitleTask] ∧
    (call_tool "create_task" { title := some "" } 0 Store.init).2.tasks =
      [emptyTitleTask] :=
  ⟨rfl, rfl⟩

/-- C3 (amended): for every argument bag in which the key `title` is
missing, dispatching `create_task` fails with the `KeyError` fault on
`title` and does not add a task to the store (an empty-string title, by
contrast, is accepted and stored). -/
theorem claim_C3 (arguments : Args) (now : Nat) (s : Store)
    (h : arguments.title = none) :
    (call_tool "create_task" arguments now s).1 = .error (.keyError "title") ∧
    (call_tool "create_task" arguments now s).2.tasks = s.tasks := by
  simp [call_tool_create_of_title_none arguments now s h]

/-- Witness for C3 at the empty argument bag against the empty store. -/
theorem claim_C3_witness :
    (call_tool "create_task" { } 0 Store.init).1 = .error (.keyError "title") ∧
    (call_tool "create_task" { } 0 Store.init).2.tasks = Store.init.tasks :=
  claim_C3 { } 0 Store.init rfl

/-- A faulting `complete_task` dispatch leaves the whole store unchanged. -/
theorem complete_task_error_state (arguments : Args) (now : Nat) (s : Store) (f : Fault)
    (herr : (call_tool "complete_task" arguments now s).1 = .error f) :
    (call_tool "complete_task" arguments now s).2 = s := by
  cases hid : arguments.task_id with
  | none => simp [call_tool, hid]
  | some tid =>
    cases hfind : s.tasks.find? (fun u => (u.id : Int) = tid) with
    | none => simp [call_tool_complete_of_absent arguments tid now s hid hfind]
    | some t =>
      rw [call_tool_complete_of_found arguments tid now s t hid hfind] at herr
      simp at herr

/-- A faulting `delete_task` dispatch leaves the whole store unchanged. -/
theorem delete_task_error_state (arguments : Args) (now : Nat) (s : Store) (f : Fault)
    (herr : (call_tool "delete_task" arguments now s).1 = .error f) :
    (call_tool "delete_task" arguments now s).2 = s := by
  cases hid : arguments.task_id with
  | none => simp [call_tool, hid]
  | some tid =>
    cases hfind : s.tasks.find? (fun u => (u.id : Int) = tid) with
    | none => simp [call_tool_delete_of_absent arguments tid now s hid hfind]
    | some t =>
      rw [call_tool_delete_of_found arguments tid now s t hid hfind] at herr
      simp at herr

/-- A faulting `search_tasks` dispatch leaves the whole store unchanged. -/
theorem search_tasks_error_state (arguments : Args) (now : Nat) (s : Store) (f : Fault)
    (herr : (call_tool "search_tasks" arguments now s).1 = .error f) :
    (call_tool "search_tasks" arguments now s).2 = s := by
  cases hkw : arguments.keyword with
  | none => simp [call_tool, hkw]
  | some kw =>
    rw [call_tool_search arguments kw now s hkw] at herr
    simp at herr

/-- C6 counterexample: the claim asserts that a faulting dispatch leaves the
store, counter included, exactly as before the call; but `create_task` with
a missing `title` increments `task_counter` (0 becomes 1 on the empty store)
before the `KeyError` is raised. -/
theorem claim_C6_counterexample :
    (call_tool "create_task" { } 0 Store.init).1 = .error (.keyError "title") ∧
    (call_tool "create_task" { } 0 Store.init).2.task_counter = 1 ∧
    Store.init.task_counter = 0 :=
  ⟨rfl, rfl, rfl⟩

/-- C6 (amended): on every faulting dispatch the tasks mapping is exactly
what it was before the call, and every faulting dispatch of a tool other
than `create_task` leaves the entire store (counter included) unchanged; a
faulting `create_task`, however, has already incremented the id counter by
one. -/
theorem claim_C6 (name : String) (arguments : Args) (now : Nat) (s : Store) (f : Fault)
    (herr : (call_tool name arguments now s).1 = .error f) :
    (call_tool name arguments now s).2.tasks = s.tasks ∧
    (name ≠ "create_task" → (call_tool name arguments now s).2 = s) ∧
    (name = "create_task" →
      (call_tool name arguments now s).2.task_counter = s.task_counter + 1) := by
  by_cases h1 : name = "create_task"
  · subst h1
    refine ⟨?_, fun hne => absurd rfl hne, fun _ => create_task_counter arguments now s⟩
    cases ht : arguments.title with
    | none => simp [call_tool_create_of_title_none arguments now s ht]
    | some title =>
      rw [call_tool_create_of_title_some arguments title now s ht] at herr
      simp at herr
  · by_cases h2 : name = "complete_task"
    · subst h2
      have hs := complete_task_error_state arguments now s f herr
      exact ⟨by rw [hs], fun _ => hs, fun hc => absurd hc h1⟩
    · by_cases h3 : name = "delete_task"
      · subst h3
        have hs := delete_task_error_state arguments now s f herr
        exact ⟨by rw [hs], fun _ => hs, fun hc => absurd hc h1⟩
      · by_cases h4 : name = "search_tasks"
        · subst h4
          have hs := search_tasks_error_state arguments now s f herr
          exact ⟨by rw [hs], fun _ => hs, fun hc => absurd hc h1⟩
        · have hs := call_tool_unknown name arguments now s h1 h2 h3 h4
          rw [hs]
          exact ⟨rfl, fun _ => rfl, fun hc => absurd hc h1⟩

/-- Witness for C6 at the faulting `create_task` dispatch with an empty
argument bag against the empty store. -/
theorem claim_C6_witness :
    (call_tool "create_task" { } 0 Store.init).2.tasks = Store.init.tasks ∧
    ("create_task" ≠ "create_task" →
      (call_tool "create_task" { } 0 Store.init).2 = Store.init) ∧
    ("create_task" = "create_task" →
      (call_tool "create_task" { } 0 Store.init).2.task_counter =
        Store.init.task_counter + 1) :=
  claim_C6 "create_task" { } 0 Store.init (.keyError "title") rfl

/-- C7 counterexample: the claim asserts that a `priority` outside the
declared enumeration makes `create_task` fault, but the enum is never
enforced — dispatching with `priority = "urgent"` succeeds and stores the
task with that priority. -/
theorem claim_C7_counterexample :
    (call_tool "create_task" { title := some "a", priority := some "urgent" } 0
        Store.init).1 =
      .ok [createdMsg urgentTask] ∧
    (call_tool "create_task" { title := some "a", priority := some "urgent" } 0
        Store.init).2.tasks =
      [urgentTask] :=
  ⟨rfl, rfl⟩

/-- C7 (amended): `create_task` performs no validation of `priority`: the
stored task carries whatever string the argument bag supplied, and the
default `"medium"` exactly when the key is absent. -/
theorem claim_C7 (arguments : Args) (title : String) (now : Nat) (s : Store)
    (h : arguments.title = some title) :
    (call_tool "create_task" arguments now s).2.tasks =
      s.tasks ++ [newTask title arguments now s] ∧
    (newTask title arguments now s).priority = arguments.priority.getD "medium" := by
  simp [call_tool_create_of_title_some arguments title now s h, newTask]

/-- Witness for C7 at a concrete out-of-enum priority. -/
theorem claim_C7_witness :
    (call_tool "create_task" { title := some "a", priority := some "urgent" } 3
        Store.init).2.tasks =
      Store.init.tasks ++
        [newTask "a" { title := some "a", priority := some "urgent" } 3 Store.init] ∧
    (newTask "a" { title := some "a", priority := some "urgent" } 3 Store.init).priority =
      (({ title := some "a", priority := some "urgent" } : Args)).priority.getD "medium" :=
  claim_C7 { title := some "a", priority := some "urgent" } "a" 3 Store.init rfl

/-- Along any create/delete run whose creates all carry a title, the ids
assigned are the consecutive integers following the starting counter. -/
theorem assignedIds_range (ops : List Op) :
    ∀ (s : Store),
      (∀ args now, Op.createOp args now ∈ ops → args.title.isSome = true) →
      assignedIds s ops = List.range' (s.task_counter + 1) (countCreates ops) := by
  induction ops with
  | nil => intro s _; simp [assignedIds, countCreates]
  | cons op rest ih =>
    intro s h
    cases op with
    | createOp args now =>
      have htitle : args.title.isSome = true := h args now (by simp)
      have hrest : ∀ a n, Op.createOp a n ∈ rest → a.title.isSome = true :=
        fun a n hm => h a n (by simp [hm])
      have hcnt : (applyOp s (Op.createOp args now)).task_counter = s.task_counter + 1 :=
        create_task_counter args now s
      have hstep : assignedIds s (Op.createOp args now :: rest) =
          (s.task_counter + 1) :: assignedIds (applyOp s (Op.createOp args now)) rest := by
        simp [assignedIds, htitle]
      have hc : countCreates (Op.createOp args now :: rest) = countCreates rest + 1 := by
        simp [countCreates, List.countP_cons]
      rw [hstep, ih _ hrest, hcnt, hc, List.range'_succ]
    | deleteOp tid now =>
      have hrest : ∀ a n, Op.createOp a n ∈ rest → a.title.isSome = true :=
        fun a n hm => h a n (by simp [hm])
      have hcnt : (applyOp s (Op.deleteOp tid now)).task_counter = s.task_counter :=
        delete_task_counter { task_id := some tid } now s
      have hc : countCreates (Op.deleteOp tid now :: rest) = countCreates rest := by
        simp [countCreates, List.countP_cons]
      rw [show assignedIds s (Op.deleteOp tid now :: rest) =
        assignedIds (applyOp s (Op.deleteOp tid now)) rest from rfl]
      rw [ih _ hrest, hcnt, hc]

/-- C1: for every sequence of `create_task` calls (each carrying a title)
interleaved with arbitrary `delete_task` calls, starting from the empty
store, the ids assigned are exactly the consecutive integers 1, 2, ... in
order — in particular strictly increasing, starting at 1, and no id is ever
assigned twice, even after the task holding it is deleted. -/
theorem claim_C1 (ops : List Op)
    (h : ∀ args now, Op.createOp args now ∈ ops → args.title.isSome = true) :
    assignedIds Store.init ops = List.range' 1 (countCreates ops) ∧
    (assignedIds Store.init ops).Nodup := by
  have hr := assignedIds_range ops Store.init h
  have h1 : assignedIds Store.init ops = List.range' 1 (countCreates ops) := by
    simpa [Store.init] using hr
  refine ⟨h1, ?_⟩
  rw [h1]
  exact List.nodup_range' 1 (countCreates ops)

/-- Witness for C1 on the concrete run create, delete 1, create. -/
theorem claim_C1_witness :
    assignedIds Store.init opsFixture = List.range' 1 (countCreates opsFixture) ∧
    (assignedIds Store.init opsFixture).Nodup :=
  claim_C1 opsFixture (by
    intro args now hm
    simp only [opsFixture, List.mem_cons, List.not_mem_nil, or_false] at hm
    rcases hm with hm | hm | hm
    · rw [(Op.createOp.injEq _ _ _ _).mp hm |>.1]; rfl
    · exact absurd hm (by simp)
    · rw [(Op.createOp.injEq _ _ _ _).mp hm |>.1]; rfl)

/-- Every single tool dispatch preserves the completed/completed_at
consistency invariant. -/
theorem store_consistent_call_tool (name : String) (arguments : Args) (now : Nat)
    (s : Store) (h : StoreConsistent s) :
    StoreConsistent (call_tool name arguments now s).2 := by
  by_cases h1 : name = "create_task"
  · subst h1
    cases ht : arguments.title with
    | none =>
      rw [call_tool_create_of_title_none arguments now s ht]
      exact h
    | some title =>
      rw [call_tool_create_of_title_some arguments title now s ht]
      intro t htm
      rcases List.mem_append.mp htm with hmem | hmem
      · exact h t hmem
      · rw [List.mem_singleton.mp hmem]; rfl
  · by_cases h2 : name = "complete_task"
    · subst h2
      cases hid : arguments.task_id with
      | none =>
        have : call_tool "complete_task" arguments now s =
            (.error (.keyError "task_id"), s) := by simp [call_tool, hid]
        rw [this]; exact h
      | some tid =>
        cases hfind : s.tasks.find? (fun u => (u.id : Int) = tid) with
        | none => rw [call_tool_complete_of_absent arguments tid now s hid hfind]; exact h
        | some t0 =>
          rw [call_tool_complete_of_found arguments tid now s t0 hid hfind]
          intro t htm
          rcases List.mem_map.mp htm with ⟨u, hu, hut⟩
          by_cases hc : (u.id : Int) = tid
          · rw [← hut]; simp [hc]
          · rw [← hut]; simp only [hc, if_false, ite_false, if_neg hc]
            exact h u hu
    · by_cases h3 : name = "delete_task"
      · subst h3
        cases hid : arguments.task_id with
        | none =>
          have : call_tool "delete_task" arguments now s =
              (.error (.keyError "task_id"), s) := by simp [call_tool, hid]
          rw [this]; exact h
        | some tid =>
          cases hfind : s.tasks.find? (fun u => (u.id : Int) = tid) with
          | none => rw [call_tool_delete_of_absent arguments tid now s hid hfind]; exact h
          | some t0 =>
            rw [call_tool_delete_of_found arguments tid now s t0 hid hfind]
            intro t htm
            exact h t (List.mem_of_mem_filter htm)
      · by_cases h4 : name = "search_tasks"
        · subst h4
          cases hkw : arguments.keyword with
          | none =>
            have : call_tool "search_tasks" arguments now s =
                (.error (.keyError "keyword"), s) := by simp [call_tool, hkw]
            rw [this]; exact h
          | some kw => rw [call_tool_search arguments kw now s hkw]; exact h
        · rw [call_tool_unknown name arguments now s h1 h2 h3 h4]; exact h

/-- Any run of tool dispatches preserves the consistency invariant. -/
theorem store_consistent_run (ds : List Dispatch) :
    ∀ (s : Store), StoreConsistent s → StoreConsistent (runDispatches s ds) := by
  induction ds with
  | nil => intro s h; exact h
  | cons d rest ih =>
    intro s h
    exact ih _ (store_consistent_call_tool d.name d.arguments d.now s h)

/-- Updating the found entry refreshes what `find?` returns. -/
theorem find?_map_update (l : List Task) (tid : Int) (t upd : Task)
    (hupd : (upd.id : Int) = tid)
    (hfind : l.find? (fun u => (u.id : Int) = tid) = some t) :
    (l.map (fun u => if (u.id : Int) = tid then upd else u)).find?
      (fun u => (u.id : Int) = tid) = some upd := by
  induction l with
  | nil => simp at hfind
  | cons a rest ih =>
    by_cases hc : (a.id : Int) = tid
    · rw [List.map_cons, if_pos hc]
      exact List.find?_cons_of_pos _ (by simpa using hupd)
    · rw [List.find?_cons_of_neg _ (by simpa using hc)] at hfind
      rw [List.map_cons, if_neg hc, List.find?_cons_of_neg _ (by simpa using hc)]
      exact ih hfind

/-- C4: in every store reachable from the empty store by tool dispatches,
`completed_at` is present exactly when `completed` is true; and completing a
task with id `tid` — for the first or a repeated time — makes the stored
record under that id the old record with `completed := true` and
`completed_at` refreshed to the call's timestamp, all other fields (id and
title in particular) unchanged. -/
theorem claim_C4 :
    (∀ (ds : List Dispatch), StoreConsistent (runDispatches Store.init ds)) ∧
    (∀ (s : Store) (tid : Int) (now : Nat) (t : Task),
      s.tasks.find? (fun u => (u.id : Int) = tid) = some t →
      (call_tool "complete_task" { task_id := some tid } now s).2.tasks.find?
          (fun u => (u.id : Int) = tid) =
        some { t with completed := true, completed_at := some now }) := by
  constructor
  · intro ds
    refine store_consistent_run ds Store.init ?_
    intro t ht
    simp [Store.init] at ht
  · intro s tid now t hfind
    rw [call_tool_complete_of_found { task_id := some tid } tid now s t rfl hfind]
    have htid : (t.id : Int) = tid := by
      have := List.find?_some hfind
      simpa using this
    exact find?_map_update s.tasks tid t _ (by simpa using htid) hfind

/-- Witness for C4: a concrete create-then-complete run, and a repeated
completion of the already-completed `doneTask` refreshing its timestamp. -/
theorem claim_C4_witness :
    StoreConsistent (runDispatches Store.init dispatchFixture) ∧
    (call_tool "complete_task" { task_id := some 1 } 7 doneStore).2.tasks.find?
        (fun u => (u.id : Int) = 1) =
      some { doneTask with completed := true, completed_at := some 7 } :=
  ⟨claim_C4.1 dispatchFixture, claim_C4.2 doneStore 1 7 doneTask (by decide)⟩

/-- Digit strings contain no slash. -/
theorem digitsAux_no_slash : ∀ (cs : List Char) (acc n : Nat),
    digitsAux acc cs = some n → '/' ∉ cs := by
  intro cs
  induction cs with
  | nil => intro acc n _ h; simp at h
  | cons c rest ih =>
    intro acc n h hmem
    cases hd : digitVal c with
    | none => rw [digitsAux, hd] at h; simp at h
    | some d =>
      rw [digitsAux, hd] at h
      rcases List.mem_cons.mp hmem with hc | hc
      · rw [← hc] at hd
        simp [digitVal] at hd
      · exact ih _ n h hc

/-- A character list `digitsToNat` accepts contains no slash. -/
theorem digitsToNat_no_slash (cs : List Char) (n : Nat)
    (h : digitsToNat cs = some n) : '/' ∉ cs := by
  cases cs with
  | nil => simp [digitsToNat] at h
  | cons c rest =>
    exact digitsAux_no_slash (c :: rest) 0 n (by simpa [digitsToNat] using h)

/-- A character list `pyIntChars` accepts contains no slash. -/
theorem pyIntChars_no_slash (cs : List Char) (n : Int)
    (h : pyIntChars cs = some n) : '/' ∉ cs := by
  cases cs with
  | nil => simp [pyIntChars] at h
  | cons c rest =>
    intro hmem
    have hcs : c ≠ '/' ∧ '/' ∉ rest → False := fun ⟨h1, h2⟩ => by
      rcases List.mem_cons.mp hmem with hc | hc
      · exact h1 hc.symm
      · exact h2 hc
    by_cases hm : c = '-'
    · subst hm
      rw [pyIntChars, if_pos rfl] at h
      cases hd : digitsToNat rest with
      | none => rw [hd] at h; simp at h
      | some m =>
        exact hcs ⟨by decide, digitsToNat_no_slash rest m hd⟩
    · by_cases hp : c = '+'
      · subst hp
        rw [pyIntChars, if_neg (by decide), if_pos rfl] at h
        cases hd : digitsToNat rest with
        | none => rw [hd] at h; simp at h
        | some m =>
          exact hcs ⟨by decide, digitsToNat_no_slash rest m hd⟩
      · rw [pyIntChars, if_neg hm, if_neg hp] at h
        cases hd : digitsToNat (c :: rest) with
        | none => rw [hd] at h; simp at h
        | some m =>
          exact digitsToNat_no_slash (c :: rest) m hd hmem

/-- Splitting `task://<rest>` on `//` yields `task:` and then the split of
the remainder. -/
theorem splitDslash_task_prefix (cs : List Char) :
    splitDslash ('t' :: 'a' :: 's' :: 'k' :: ':' :: '/' :: '/' :: cs) =
      "task:".data :: splitDslash cs := rfl

/-- A slash-free character list is returned whole by the splitter. -/
theorem splitDslash_of_no_slash (cs : List Char) (h : '/' ∉ cs) :
    splitDslash cs = [cs] := by
  induction cs with
  | nil => rfl
  | cons c rest ih =>
    have hc : c ≠ '/' := fun hce => h (hce ▸ List.mem_cons_self c rest)
    have hrest : '/' ∉ rest := fun hm => h (List.mem_cons_of_mem c hm)
    cases rest with
    | nil => rfl
    | cons c2 rest2 =>
      have ih2 : splitDslash (c2 :: rest2) = [c2 :: rest2] := ih hrest
      have hcond : (c == '/' && c2 == '/') = false := by
        simp [hc]
      simp [splitDslash, hcond, ih2]

/-- A string accepted by `pyInt` is not the string `all`. -/
theorem pyInt_ne_all (str : String) (tid : Int) (h : pyInt str = some tid) :
    str ≠ "all" := by
  intro he
  rw [he] at h
  rw [show pyInt "all" = none from rfl] at h
  exact Option.noConfusion h

/-- Appending to `task://` is injective, so only `all` collides with the
aggregate URI. -/
theorem task_uri_ne_all (str : String) (hne : str ≠ "all") :
    ("task://" ++ str : String) ≠ "task://all" := by
  intro he
  have hd := congrArg String.data he
  rw [String.data_append] at hd
  have hd2 : ("task://" : String).data ++ str.data =
      ("task://" : String).data ++ ("all" : String).data := hd.trans (by rfl)
  exact hne (String.ext (List.append_cancel_left hd2))

/-- Characterization of `read_resource` on a well-formed `task://<seg>` URI
with a slash-free segment other than `all`: the segment is parsed with
`int()` and looked up. -/
theorem read_resource_task_aux (str : String) (now : Nat) (s : Store)
    (hne : ("task://" ++ str : String) ≠ "task://all")
    (hnosl : '/' ∉ str.data) :
    read_resource ("task://" ++ str) now s =
      (match pyIntChars str.data with
       | none => (.error (.invalidLiteral str), s)
       | some tid =>
         match s.tasks.find? (fun t => (t.id : Int) = tid) with
         | some t => (.ok (taskJson t), s)
         | none => (.error (.taskNotFound tid), s)) := by
  have hsw : pyStartswith ("task://" ++ str) "task://" = true := by
    unfold pyStartswith
    rw [String.data_append]
    exact decide_eq_true (List.prefix_append _ _)
  have hsplit : splitDslash ("task://" ++ str).data =
      "task:".data :: splitDslash str.data := splitDslash_task_prefix str.data
  simp only [read_resource, if_neg hne, hsw, if_true, hsplit,
    splitDslash_of_no_slash str.data hnosl, List.getD_cons_succ, List.getD_cons_zero]

/-- C5: reading `task://all` yields the JSON object with the `tasks` dict,
`total_count` equal to the number of stored tasks, and the read timestamp;
reading `task://<id>` with a numeric slash-free id returns the stored task's
JSON when present and the hard `taskNotFound` fault when absent; a
non-numeric slash-free id yields the `invalidLiteral` fault; and a URI not
starting with `task://` yields the `unknownResource` fault. The store is
unchanged in every case. -/
theorem claim_C5 :
    (∀ (s : Store) (now : Nat),
      read_resource "task://all" now s =
        (.ok (.obj [("tasks", .obj (s.tasks.map (fun t => (toString t.id, taskJson t)))),
          ("total_count", .num (s.tasks.length : Int)),
          ("timestamp", .num (now : Int))]), s)) ∧
    (∀ (str : String) (tid : Int) (now : Nat) (s : Store) (t : Task),
      pyInt str = some tid →
      s.tasks.find? (fun u => (u.id : Int) = tid) = some t →
      read_resource ("task://" ++ str) now s = (.ok (taskJson t), s)) ∧
    (∀ (str : String) (tid : Int) (now : Nat) (s : Store),
      pyInt str = some tid →
      s.tasks.find? (fun u => (u.id : Int) = tid) = none →
      read_resource ("task://" ++ str) now s = (.error (.taskNotFound tid), s)) ∧
    (∀ (str : String) (now : Nat) (s : Store),
      pyInt str = none → '/' ∉ str.data → str ≠ "all" →
      read_resource ("task://" ++ str) now s = (.error (.invalidLiteral str), s)) ∧
    (∀ (uri : String) (now : Nat) (s : Store),
      pyStartswith uri "task://" = false →
      read_resource uri now s = (.error (.unknownResource uri), s)) := by
  refine ⟨?all, ?found, ?absent, ?nonnum, ?scheme⟩
  case all =>
    intro s now
    simp [read_resource, allTasksJson]
  case found =>
    intro str tid now s t hint hfind
    have hnosl : '/' ∉ str.data := pyIntChars_no_slash str.data tid hint
    have hne := task_uri_ne_all str (pyInt_ne_all str tid hint)
    rw [read_resource_task_aux str now s hne hnosl]
    rw [show pyIntChars str.data = some tid from hint]
    simp only [hfind]
  case absent =>
    intro str tid now s hint hfind
    have hnosl : '/' ∉ str.data := pyIntChars_no_slash str.data tid hint
    have hne := task_uri_ne_all str (pyInt_ne_all str tid hint)
    rw [read_resource_task_aux str now s hne hnosl]
    rw [show pyIntChars str.data = some tid from hint]
    simp only [hfind]
  case nonnum =>
    intro str now s hint hnosl hnall
    have hne := task_uri_ne_all str hnall
    rw [read_resource_task_aux str now s hne hnosl]
    rw [show pyIntChars str.data = none from hint]
  case scheme =>
    intro uri now s hsw
    have hnall : uri ≠ "task://all" := by
      intro he
      rw [he] at hsw
      exact absurd hsw (by decide)
    simp only [read_resource, if_neg hnall, hsw]
    simp

/-- Witness for C5 at concrete URIs against the one-task `docStore`. -/
theorem claim_C5_witness :
    read_resource "task://all" 9 docStore =
      (.ok (.obj [("tasks", .obj (docStore.tasks.map (fun t => (toString t.id, taskJson t)))),
        ("total_count", .num (docStore.tasks.length : Int)),
        ("timestamp", .num (9 : Int))]), docStore) ∧
    read_resource ("task://" ++ "1") 9 docStore = (.ok (taskJson docTask), docStore) ∧
    read_resource ("task://" ++ "2") 9 docStore =
      (.error (.taskNotFound 2), docStore) ∧
    read_resource ("task://" ++ "abc") 9 docStore =
      (.error (.invalidLiteral "abc"), docStore) ∧
    read_resource "http://x" 9 docStore =
      (.error (.unknownResource "http://x"), docStore) :=
  ⟨claim_C5.1 docStore 9,
    claim_C5.2.1 "1" 1 9 docStore docTask (by decide) (by decide),
    claim_C5.2.2.1 "2" 2 9 docStore (by decide) (by decide),
    claim_C5.2.2.2.1 "abc" 9 docStore (by decide) (by decide) (by decide),
    claim_C5.2.2.2.2 "http://x" 9 docStore (by decide)⟩

/-- C8 counterexample: the claim treats any `include_completed` value other
than the literal `"false"` as true; but Python parses the flag as
`arguments.get("include_completed", "true") == "true"`, so the value
`"yes"` makes the flag false and the completed `doneTask` is dropped from
the rendered message — the summary renders the empty task list even though
the store holds a completed task. -/
theorem claim_C8_counterexample :
    (get_prompt "daily_summary" (some [("include_completed", "yes")]) doneStore).1 =
      .ok (dailySummaryResult (some [("include_completed", "yes")]) doneStore) ∧
    dailySummaryTaskList (some [("include_completed", "yes")]) doneStore = [] ∧
    doneStore.tasks = [doneTask] ∧
    doneTask.completed = true :=
  ⟨rfl, rfl, rfl, rfl⟩

/-- C8 (amended): the `daily_summary` rendering embeds exactly the filtered
task list, and a stored task appears in that list iff it is not completed or
the `include_completed` flag parsed to true; the flag is true for an absent
dict, an empty dict, or an absent key, and exactly when a present value is
the literal string `"true"` — any other value, `"false"`, `"yes"`, `"True"`,
or `"1"` alike, excludes completed tasks. -/
theorem claim_C8 :
    (∀ (arguments : Option (List (String × String))) (s : Store),
      (get_prompt "daily_summary" arguments s).1 =
        .ok (dailySummaryResult arguments s)) ∧
    (∀ (arguments : Option (List (String × String))) (s : Store) (t : Task),
      t ∈ s.tasks →
      (t ∈ dailySummaryTaskList arguments s ↔
        t.completed = false ∨ includeCompletedFlag arguments = true)) ∧
    includeCompletedFlag none = true ∧
    includeCompletedFlag (some []) = true ∧
    includeCompletedFlag (some [("other", "x")]) = true ∧
    includeCompletedFlag (some [("include_completed", "true")]) = true ∧
    includeCompletedFlag (some [("include_completed", "false")]) = false ∧
    includeCompletedFlag (some [("include_completed", "yes")]) = false ∧
    includeCompletedFlag (some [("include_completed", "True")]) = false ∧
    includeCompletedFlag (some [("include_completed", "1")]) = false := by
  refine ⟨?render, ?mem, rfl, rfl, rfl, rfl, rfl, rfl, rfl, rfl⟩
  case render =>
    intro arguments s
    simp [get_prompt, dailySummaryResult]
  case mem =>
    intro arguments s t ht
    cases hf : includeCompletedFlag arguments <;> cases hc : t.completed <;>
      simp [dailySummaryTaskList, List.mem_filter, ht, hf, hc]

/-- Witness for C8 at the literal `"false"` value against `doneStore`. -/
theorem claim_C8_witness :
    (get_prompt "daily_summary" (some [("include_completed", "false")]) doneStore).1 =
      .ok (dailySummaryResult (some [("include_completed", "false")]) doneStore) ∧
    (doneTask ∈ dailySummaryTaskList (some [("include_completed", "false")]) doneStore ↔
      doneTask.completed = false ∨
        includeCompletedFlag (some [("include_completed", "false")]) = true) :=
  ⟨claim_C8.1 (some [("include_completed", "false")]) doneStore,
    claim_C8.2.1 (some [("include_completed", "false")]) doneStore doneTask (by decide)⟩

/-- C9: `search_tasks` returns exactly the stored tasks whose title or
description contains the lower-cased keyword as a case-insensitive
substring, in store enumeration order; the empty keyword matches every task;
and the keyword `DOC` matches the task titled `Write documentation`. -/
theorem claim_C9 :
    (∀ (s : Store) (kw : String) (now : Nat),
      (call_tool "search_tasks" { keyword := some kw } now s).1 =
        .ok [searchMsg (pyLower kw) (s.tasks.filter (fun t =>
          decide ((pyLower kw).data <:+: (pyLower t.title).data ∨
            (pyLower kw).data <:+: (pyLower t.description).data)))]) ∧
    (∀ (s : Store) (now : Nat),
      (call_tool "search_tasks" { keyword := some "" } now s).1 =
        .ok [searchMsg "" s.tasks]) ∧
    (call_tool "search_tasks" { keyword := some "DOC" } 0 docStore).1 =
      .ok [searchMsg "doc" [docTask]] := by
  refine ⟨?subst, ?empty, by rfl⟩
  case subst =>
    intro s kw now
    rw [call_tool_search { keyword := some kw } kw now s rfl]
    have hpt : ∀ t ∈ s.tasks, searchMatch (pyLower kw) t =
        decide ((pyLower kw).data <:+: (pyLower t.title).data ∨
          (pyLower kw).data <:+: (pyLower t.description).data) := by
      intro t _
      by_cases h1 : (pyLower kw).data <:+: (pyLower t.title).data <;>
        by_cases h2 : (pyLower kw).data <:+: (pyLower t.description).data <;>
          simp [searchMatch, pyContains, h1, h2]
    rw [List.filter_congr hpt]
  case empty =>
    intro s now
    rw [call_tool_search { keyword := some "" } "" now s rfl]
    have hall : ∀ t ∈ s.tasks, searchMatch (pyLower "") t = true := by
      intro t _
      have h1 : pyContains (pyLower t.title) (pyLower "") = true :=
        decide_eq_true List.nil_infix
      simp [searchMatch, h1]
    rw [List.filter_eq_self.mpr hall]
    rfl

/-- C10: the read-only operations — the three catalog listings, resource
reads for any URI, prompt rendering for any name and arguments, and the
`search_tasks` tool for any argument bag — leave the whole store (tasks and
counter) unchanged, whether they return a result or raise a fault. -/
theorem claim_C10 :
    (∀ (s : Store), (list_tools s).2 = s) ∧
    (∀ (s : Store), (list_resources s).2 = s) ∧
    (∀ (s : Store), (list_prompts s).2 = s) ∧
    (∀ (uri : String) (now : Nat) (s : Store), (read_resource uri now s).2 = s) ∧
    (∀ (name : String) (arguments : Option (List (String × String))) (s : Store),
      (get_prompt name arguments s).2 = s) ∧
    (∀ (arguments : Args) (now : Nat) (s : Store),
      (call_tool "search_tasks" arguments now s).2 = s) := by
  refine ⟨fun s => rfl, fun s => rfl, fun s => rfl, ?reader, ?prompts, ?search⟩
  case reader =>
    intro uri now s
    simp only [read_resource]
    split
    · rfl
    · split
      · split
        · rfl
        · split <;> rfl
      · rfl
  case prompts =>
    intro name arguments s
    simp only [get_prompt]
    split
    · rfl
    · split
      · rfl
      · split <;> rfl
  case search =>
    intro arguments now s
    cases hkw : arguments.keyword with
    | none => simp [call_tool, hkw]
    | some kw => rw [call_tool_search arguments kw now s hkw]

end MCPTaskManager
